import Mathlib

/-!
Verification development for the `prometheus-freeswitch-exporter` repository.

The repository has two layers:

* an Event Socket Layer (ESL) protocol client (Frame Reader, Command
  Dispatcher, Auth Handshake, Connection lifecycle) — its implementation
  module `freeswitch_exporter/esl.py` is not part of the provided sources,
  so it is modelled here from the specification's description of the wire
  protocol and component contracts;
* the metrics collectors in `freeswitch_exporter/collector.py`, which are
  embedded directly from the source.

Bytes of the wire are modelled as `Char` lists; header values are `String`s.
-/

namespace FreeswitchExporter

/-- Modelled from the spec: the error taxonomy of the ESL client
(`ConnectionError`, `ProtocolError`, `AuthenticationError`, `CommandError`,
`ConnectionClosedError`); the implementation module `esl.py` is missing from
the sources. -/
inductive EslError where
  | connectionError
  | protocolError
  | authenticationError
  | commandError
  | connectionClosedError
deriving DecidableEq, Repr

/-- Modelled from the spec: one complete protocol message — a header block
(ordered mapping of header name to string value) plus an optional
length-delimited body. -/
structure Frame where
  headers : List (String × String)
  body : List Char
deriving DecidableEq, Repr

/-- Modelled from the spec: read one line of the byte stream, up to and not
including the terminating newline; `none` when the stream ends before a
newline is seen (connection closed mid-line). -/
def readLine : List Char → Option (List Char × List Char)
  | [] => none
  | c :: cs =>
    if c = '\n' then some ([], cs)
    else
      match readLine cs with
      | none => none
      | some (l, r) => some (c :: l, r)

/-- Modelled from the spec: split a header line on the first `:` into header
name and value; `none` when no `:` is present. -/
def splitColon : List Char → Option (List Char × List Char)
  | [] => none
  | c :: cs =>
    if c = ':' then some ([], cs)
    else
      match splitColon cs with
      | none => none
      | some (a, b) => some (c :: a, b)

/-- Modelled from the spec: header values on the wire follow `Name: value`;
the value is the text after the first colon with leading blanks dropped (the
spec round-trip property expects `Content-Length: 5` to carry the value
`"5"`). -/
def headerValue (l : List Char) : String :=
  String.mk (l.dropWhile (· = ' '))

theorem readLine_length :
    ∀ (s l r : List Char), readLine s = some (l, r) → r.length < s.length := by
  intro s
  induction s with
  | nil => intro l r h; simp [readLine] at h
  | cons c cs ih =>
    intro l r h
    by_cases hc : c = '\n'
    · simp [readLine, hc] at h
      simp [← h.2]
    · simp only [readLine, hc, if_false] at h
      cases hrl : readLine cs with
      | none => rw [hrl] at h; simp at h
      | some p =>
        obtain ⟨l', r'⟩ := p
        rw [hrl] at h
        simp only [Option.some.injEq, Prod.mk.injEq] at h
        have := ih l' r' hrl
        simp [← h.2]
        omega

/-- Modelled from the spec: read successive header lines; each non-blank
line is split on the first `:` (fails with `ProtocolError` if no `:` is
present); a blank line terminates the header block; a stream that ends
inside the header block fails with `ConnectionClosedError`. The `fuel`
argument makes the recursion structural; every recursive step consumes at
least one byte of the stream, so `readHeaders` below supplies fuel that can
never run out. -/
def readHeadersAux : Nat → List Char →
    Except EslError (List (String × String) × List Char)
  | 0, _ => .error .connectionClosedError
  | fuel + 1, s =>
    match readLine s with
    | none => .error .connectionClosedError
    | some (line, rest) =>
      if line = [] then .ok ([], rest)
      else
        match splitColon line with
        | none => .error .protocolError
        | some (name, val) =>
          match readHeadersAux fuel rest with
          | .error e => .error e
          | .ok (hs, r) => .ok ((String.mk name, headerValue val) :: hs, r)

/-- Modelled from the spec: decode the complete header block of one frame
from the stream, returning the header list and the remaining stream. -/
def readHeaders (s : List Char) :
    Except EslError (List (String × String) × List Char) :=
  readHeadersAux (s.length + 1) s

/-- Modelled from the spec: read exactly `n` body bytes; fails with
`ConnectionClosedError` if the stream ends before the count is satisfied. -/
def readBody : Nat → List Char → Except EslError (List Char × List Char)
  | 0, s => .ok ([], s)
  | _ + 1, [] => .error .connectionClosedError
  | n + 1, c :: cs =>
    match readBody n cs with
    | .error e => .error e
    | .ok (b, r) => .ok (c :: b, r)

/-- Parse a decimal natural number; `none` when the text is empty or holds a
non-digit (an unparsable declared length). -/
def parseNat? (l : List Char) : Option Nat :=
  if l = [] then none
  else if l.all (fun c => c.isDigit) then
    some (l.foldl (fun n c => n * 10 + (c.toNat - '0'.toNat)) 0)
  else none

/-- The declared body length of a header block: the `Content-Length` value
parsed as a natural number. -/
def contentLength (hs : List (String × String)) : Option Nat :=
  (hs.lookup "Content-Length").bind (fun v => parseNat? v.data)

/-- Modelled from the spec: decode one Frame from the byte stream — the
header block, then, when `Content-Length` is declared, exactly that many
body bytes (an unparsable declared length is a framing violation,
`ProtocolError`). Returns the Frame and the remaining stream; the reader
never surfaces a partially decoded Frame. -/
def readFrame (s : List Char) : Except EslError (Frame × List Char) :=
  match readHeaders s with
  | .error e => .error e
  | .ok (hs, rest) =>
    match hs.lookup "Content-Length" with
    | none => .ok ({ headers := hs, body := [] }, rest)
    | some v =>
      match parseNat? v.data with
      | none => .error .protocolError
      | some n =>
        match readBody n rest with
        | .error e => .error e
        | .ok (b, r) => .ok ({ headers := hs, body := b }, r)

/-- For reasoning about a fresh connection after a failed one: the Frame
Reader is instantiated per connection, so the two decodes are independent. -/
def twoConnections (firstStream freshStream : List Char) :
    Except EslError (Frame × List Char) × Except EslError (Frame × List Char) :=
  (readFrame firstStream, readFrame freshStream)

/-- Modelled from the spec: the connection lifecycle state machine
`Disconnected → Connected → AwaitingAuth → Authenticated → {Failed | Closed}`. -/
inductive ConnState where
  | disconnected
  | connected
  | awaitingAuth
  | authenticated
  | failed
  | closed
deriving DecidableEq, Repr

/-- Modelled from the spec: frame kinds as a closed tagged variant derived
once at decode time from the `Content-Type` header. -/
inductive FrameKind where
  | greeting
  | commandReply
  | apiResponse
  | event
  | unknown
deriving DecidableEq, Repr

/-- Modelled from the spec: classify a decoded frame by its `Content-Type`
header (the greeting's distinguished content type is `auth/request`; any
`text/event*` encoding variant is an event). -/
def frameKind (f : Frame) : FrameKind :=
  match f.headers.lookup "Content-Type" with
  | none => .unknown
  | some ct =>
    if ct = "auth/request" then .greeting
    else if ct = "command/reply" then .commandReply
    else if ct = "api/response" then .apiResponse
    else if "text/event".toList.isPrefixOf ct.data then .event
    else .unknown

/-- Modelled from the spec: a frame of a command-result class
(`command/reply` or `api/response`); only these resolve a PendingCommand. -/
def isCommandResult (f : Frame) : Bool :=
  match frameKind f with
  | .commandReply => true
  | .apiResponse => true
  | _ => false

/-- Modelled from the spec: a resolved reply whose status marker
(`Reply-Text` beginning with the error marker `-ERR`) signals failure. -/
def isErrorReply (f : Frame) : Bool :=
  match f.headers.lookup "Reply-Text" with
  | some t => "-ERR".toList.isPrefixOf t.data
  | none => false

/-- Modelled from the spec: a Connection owns the byte stream, the lifecycle
state, the log of commands written to the wire, and the single
PendingCommand slot (the command text of an unresolved `send`). -/
structure Conn where
  state : ConnState
  inStream : List Char
  wire : List String
  pending : Option String
deriving DecidableEq, Repr

/-- Modelled from the spec: the dispatcher's wait — frames are decoded until
one of a command-result class arrives; frames of any other kind (events,
greetings) are routed to the event sink and never resolve the
PendingCommand. Fuel makes the recursion structural; each frame consumes at
least one byte, so `awaitReply` below supplies fuel that cannot run out. -/
def awaitReplyAux : Nat → List Char → Except EslError (Frame × List Char)
  | 0, _ => .error .connectionClosedError
  | fuel + 1, s =>
    match readFrame s with
    | .error e => .error e
    | .ok (f, r) =>
      if isCommandResult f then .ok (f, r) else awaitReplyAux fuel r

/-- Modelled from the spec: drain frames until the command-result frame that
resolves the one outstanding PendingCommand. -/
def awaitReply (s : List Char) : Except EslError (Frame × List Char) :=
  awaitReplyAux (s.length + 1) s

/-- Modelled from the spec: a `send` that has acquired exclusive submission
rights — the command (with its blank-line terminator) is written to the wire
and the PendingCommand slot is registered. -/
def beginSend (c : Conn) (cmd : String) : Conn :=
  { c with wire := c.wire ++ [cmd], pending := some cmd }

/-- Modelled from the spec: the Command Dispatcher — write the command, then
suspend until the Frame Reader delivers a command-result frame; a reader
failure fails the one outstanding PendingCommand and moves the connection to
`Failed`. -/
def dispatch (c : Conn) (cmd : String) : Except EslError Frame × Conn :=
  let c1 := beginSend c cmd
  match awaitReply c1.inStream with
  | .error e => (.error e, { c1 with pending := none, state := .failed })
  | .ok (f, rest) => (.ok f, { c1 with pending := none, inStream := rest })

/-- Modelled from the spec: `send` — only valid on an Authenticated
connection (operations on a terminal connection fail immediately without
touching the socket); a reply whose status marker signals failure fails with
`CommandError`, otherwise the reply's headers and body are returned. -/
def send (c : Conn) (cmd : String) :
    Except EslError (List (String × String) × List Char) × Conn :=
  if c.state = ConnState.authenticated then
    match dispatch c cmd with
    | (.error e, c1) => (.error e, c1)
    | (.ok f, c1) =>
      if isErrorReply f then (.error .commandError, c1)
      else (.ok (f.headers, f.body), c1)
  else (.error .connectionClosedError, c)

/-- Modelled from the spec: `login(password)` submits `auth <password>` via
the Command Dispatcher; any resolved error status is an
`AuthenticationError` moving the connection to `Failed`; success moves it to
`Authenticated`. -/
def login (c : Conn) (password : String) : Except EslError Unit × Conn :=
  match dispatch c ("auth " ++ password) with
  | (.error e, c1) => (.error e, c1)
  | (.ok f, c1) =>
    if isErrorReply f then
      (.error .authenticationError, { c1 with state := .failed })
    else
      (.ok (), { c1 with state := .authenticated })

/-- What `close()` delivered to a pending `send`, if one was outstanding. -/
structure CloseOutcome where
  resolvedPending : Option EslError
deriving DecidableEq, Repr

/-- Modelled from the spec: `close()` — idempotent and with no failure mode;
moves any state to `Closed` and resolves an outstanding PendingCommand with
`ConnectionClosedError` rather than leaving it unresolved. -/
def close (c : Conn) : CloseOutcome × Conn :=
  ({ resolvedPending := c.pending.map (fun _ => EslError.connectionClosedError) },
   { c with state := ConnState.closed, pending := none })

/-- Observable events on one connection, in submission order: a command's
bytes being written to the wire, and a pending `send` resolving with its
reply frame. -/
inductive WireEvent where
  | write (cmd : String)
  | resolve (cmd : String) (reply : Frame)
deriving DecidableEq, Repr

/-- Modelled from the spec: commands submitted sequentially by any number of
callers are admitted through the dispatcher's FIFO queue; each command is
fully written and its reply resolved before the next caller's command is
touched. Returns the final connection and the ordered event trace (a failed
command stops the run: subsequent callers fail without wire activity). -/
def runCommands : Conn → List String → Conn × List WireEvent
  | c, [] => (c, [])
  | c, cmd :: rest =>
    match dispatch c cmd with
    | (.ok f, c1) =>
      let (c2, t) := runCommands c1 rest
      (c2, .write cmd :: .resolve cmd f :: t)
    | (.error _, c1) => (c1, [.write cmd])

/-- How a collector uses the body returned for a command: parsed as JSON,
parsed as XML, or discarded unread. -/
inductive BodyUse where
  | json
  | xml
  | ignored
deriving DecidableEq, Repr

/-- The command `ESLProcessInfo.collect` passes to `ESL.send` and how the
returned body is consumed (`collector.py:34-36`). -/
def processInfoRequests : List (List Char × BodyUse) :=
  [("api json \x7b\"command\" : \"status\", \"data\" : \"\"\x7d".toList,
    BodyUse.json)]

/-- The commands `ESLChannelInfo.collect` passes to `ESL.send`, given the
call uuids reported by `api show calls as json`, and how each returned body
is consumed: the `uuid_set_media_stats` result is discarded, the others are
parsed as JSON (`collector.py:324-332`). -/
def channelInfoRequests (uuids : List (List Char)) :
    List (List Char × BodyUse) :=
  ("api show calls as json".toList, BodyUse.json) ::
    uuids.flatMap (fun u =>
      [("api uuid_set_media_stats ".toList ++ u, BodyUse.ignored),
       ("api uuid_dump ".toList ++ u ++ " json".toList, BodyUse.json)])

/-- The commands `ESLSofiaInfo.collect` passes to `ESL.send`, given the
profile and gateway names found in the `sofia xmlstatus` output; every
returned body is parsed as XML (`collector.py:101,142,173`). -/
def sofiaInfoRequests (profiles gateways : List (List Char)) :
    List (List Char × BodyUse) :=
  ("api sofia xmlstatus".toList, BodyUse.xml) ::
    (profiles.map
      (fun p => ("api sofia xmlstatus profile ".toList ++ p, BodyUse.xml)) ++
     gateways.map
      (fun g => ("api sofia xmlstatus gateway ".toList ++ g, BodyUse.xml)))

/-- Exit path taken by the `async with` body in `ChannelCollector.collect`:
normal completion, an error raised by a collector, or cancellation. -/
inductive ExitPath where
  | completed
  | errorRaised
  | cancelled
deriving DecidableEq, Repr

/-- The steps `EslAsyncContextManager.__aenter__` performs, in order: open
the TCP connection, read the greeting, authenticate
(`collector.py:394-399`). -/
inductive AcqStep where
  | openConn
  | initGreeting
  | loginAuth
deriving DecidableEq, Repr

/-- `__aenter__`'s acquisition sequence (`collector.py:394-399`). -/
def aenterSteps : List AcqStep :=
  [AcqStep.openConn, AcqStep.initGreeting, AcqStep.loginAuth]

/-- The stream writer owned by `EslAsyncContextManager`. -/
structure WriterState where
  closed : Bool
deriving DecidableEq, Repr

/-- `EslAsyncContextManager.__aexit__` (`collector.py:401-403`): closes the
writer; the exception information passed in decides nothing — the writer is
closed whatever path ended the body. -/
def aexit (w : WriterState) (path : ExitPath) : WriterState :=
  match path with
  | _ => { w with closed := true }

/-- `ChannelCollector.collect` (`collector.py:378-384`) with Python's
`async with` semantics: `__aenter__` acquires the connection, the body runs
to one of its exit paths, and `__aexit__` runs on that same path. Returns
the acquisition steps, the body's exit path, and the final writer state. -/
def collectScoped (path : ExitPath) : List AcqStep × ExitPath × WriterState :=
  let w : WriterState := { closed := false }
  (aenterSteps, path, aexit w path)

/-- A configuration value of the scrape config mapping: an integer or a
string. -/
inductive ConfigVal where
  | int (n : Int)
  | str (s : String)
deriving DecidableEq, Repr

/-- Python's `config.get(key, default)` on the scrape config mapping. -/
def configGet (config : List (String × ConfigVal)) (key : String)
    (dflt : ConfigVal) : ConfigVal :=
  (config.lookup key).getD dflt

/-- The connection parameters `collect_esl` passes to `ChannelCollector`. -/
structure ScrapeTarget where
  host : String
  port : ConfigVal
  password : ConfigVal
deriving DecidableEq, Repr

/-- `collect_esl` (`collector.py:405-413`): scrapes the host on
`config.get('port', 8021)` with `config.get('password', 'ClueCon')`. -/
def collect_esl (config : List (String × ConfigVal)) (host : String) :
    ScrapeTarget :=
  { host := host,
    port := configGet config "port" (ConfigVal.int 8021),
    password := configGet config "password" (ConfigVal.str "ClueCon") }

/-- A Prometheus gauge family: metric name plus (label values, value)
samples. -/
structure Metric where
  name : String
  samples : List (List String × Rat)
deriving DecidableEq, Repr

/-- The fields of the `api json status` response that
`ESLProcessInfo.collect` reads (`collector.py:36-77`): missing keys emit no
sample; the session triple is (total, active, limit), inner keys missing
from the response already defaulted to 0. -/
structure StatusResponse where
  version : Option String
  systemStatus : Option String
  stackSizeKBCurrent : Option Rat
  sessionCounts : Option (Rat × Rat × Rat)
deriving DecidableEq, Repr

/-- The `freeswitch_test` gauge built with constant sample 12 inside
`ESLProcessInfo.collect` (`collector.py:38-41`). -/
def testMetric : Metric :=
  { name := "freeswitch_test", samples := [([], 12)] }

/-- `ESLProcessInfo.collect` (`collector.py:29-83`): builds the info,
up-status, stack-bytes and per-session gauges from the status response and
returns them chained; `testMetric` is built but never part of the returned
chain. -/
def processInfoCollect (r : StatusResponse) : List Metric :=
  let infoM : Metric :=
    { name := "freeswitch_info",
      samples :=
        match r.version with
        | some v => [([v], 1)]
        | none => [] }
  let statusM : Metric :=
    { name := "freeswitch_up",
      samples :=
        match r.systemStatus with
        | some st => [([], if st = "ready" then 1 else 0)]
        | none => [] }
  let memM : Metric :=
    { name := "freeswitch_stack_bytes",
      samples :=
        match r.stackSizeKBCurrent with
        | some kb => [([], kb * 1024)]
        | none => [] }
  let sessionMs : List Metric :=
    match r.sessionCounts with
    | some counts =>
        [("total", counts.1), ("active", counts.2.1),
         ("limit", counts.2.2)].map
          (fun p =>
            { name := "freeswitch_session_" ++ p.1, samples := [([], p.2)] })
    | none => []
  [infoM, statusM, memM] ++ sessionMs

/-- The channel-variable names whose raw millisecond values are divided by
1000 before emission (`collector.py:318-322`). -/
def millisecondMetrics : List String :=
  ["variable_rtp_audio_in_jitter_min_variance",
   "variable_rtp_audio_in_jitter_max_variance",
   "variable_rtp_audio_in_mean_interval"]

/-- The tracked channel variables and the gauge each one feeds
(`collector.py:198-307`). -/
def channelMetricNames : List (String × String) :=
  [("variable_rtp_audio_in_raw_bytes", "rtp_audio_in_raw_bytes_total"),
   ("variable_rtp_audio_out_raw_bytes", "rtp_audio_out_raw_bytes_total"),
   ("variable_rtp_audio_in_media_bytes", "rtp_audio_in_media_bytes_total"),
   ("variable_rtp_audio_out_media_bytes", "rtp_audio_out_media_bytes_total"),
   ("variable_rtp_audio_in_packet_count", "rtp_audio_in_packets_total"),
   ("variable_rtp_audio_out_packet_count", "rtp_audio_out_packets_total"),
   ("variable_rtp_audio_in_media_packet_count",
    "rtp_audio_in_media_packets_total"),
   ("variable_rtp_audio_out_media_packet_count",
    "rtp_audio_out_media_packets_total"),
   ("variable_rtp_audio_in_skip_packet_count",
    "rtp_audio_in_skip_packets_total"),
   ("variable_rtp_audio_out_skip_packet_count",
    "rtp_audio_out_skip_packets_total"),
   ("variable_rtp_audio_in_jitter_packet_count",
    "rtp_audio_in_jitter_packets_total"),
   ("variable_rtp_audio_in_dtmf_packet_count",
    "rtp_audio_in_dtmf_packets_total"),
   ("variable_rtp_audio_out_dtmf_packet_count",
    "rtp_audio_out_dtmf_packets_total"),
   ("variable_rtp_audio_in_cng_packet_count",
    "rtp_audio_in_cng_packets_total"),
   ("variable_rtp_audio_out_cng_packet_count",
    "rtp_audio_out_cng_packets_total"),
   ("variable_rtp_audio_in_flush_packet_count",
    "rtp_audio_in_flush_packets_total"),
   ("variable_rtp_audio_in_largest_jb_size",
    "rtp_audio_in_jitter_buffer_bytes_max"),
   ("variable_rtp_audio_in_jitter_min_variance",
    "rtp_audio_in_jitter_seconds_min"),
   ("variable_rtp_audio_in_jitter_max_variance",
    "rtp_audio_in_jitter_seconds_max"),
   ("variable_rtp_audio_in_jitter_loss_rate",
    "rtp_audio_in_jitter_loss_rate"),
   ("variable_rtp_audio_in_jitter_burst_rate",
    "rtp_audio_in_jitter_burst_rate"),
   ("variable_rtp_audio_in_mean_interval",
    "rtp_audio_in_mean_interval_seconds"),
   ("variable_rtp_audio_in_flaw_total", "rtp_audio_in_flaw_total"),
   ("variable_rtp_audio_in_quality_percentage",
    "rtp_audio_in_quality_percent"),
   ("variable_rtp_audio_in_mos", "rtp_audio_in_quality_mos"),
   ("variable_rtp_audio_rtcp_octet_count", "rtcp_audio_bytes_total"),
   ("variable_rtp_audio_rtcp_packet_count", "rtcp_audio_packets_total")]

/-- The per-channel emission loop of `ESLChannelInfo.collect`
(`collector.py:334-340`): each channel variable's value is divided by 1000
when the variable is a millisecond metric, then added to its gauge when the
variable is tracked; untracked variables emit nothing. Samples are
(gauge name, label values, value). -/
def channelEmit (channelvars : List (String × Rat)) (uuid : String) :
    List (String × List String × Rat) :=
  channelvars.filterMap (fun kv =>
    let value := if kv.1 ∈ millisecondMetrics then kv.2 / 1000 else kv.2
    (channelMetricNames.lookup kv.1).map
      (fun mname => (mname, [uuid], value)))

theorem readBody_length :
    ∀ (n : Nat) (s b r : List Char), readBody n s = .ok (b, r) → b.length = n := by
  intro n
  induction n with
  | zero => intro s b r h; simp [readBody] at h; simp [← h.1]
  | succ m ih =>
    intro s b r h
    cases s with
    | nil => simp [readBody] at h
    | cons c cs =>
      simp only [readBody] at h
      cases hb : readBody m cs with
      | error e => rw [hb] at h; simp at h
      | ok p =>
        obtain ⟨b', r'⟩ := p
        rw [hb] at h
        simp only [Except.ok.injEq, Prod.mk.injEq] at h
        have := ih cs b' r' hb
        simp [← h.1, this]

theorem readBody_short :
    ∀ (n : Nat) (s : List Char), s.length < n →
      readBody n s = .error .connectionClosedError := by
  intro n
  induction n with
  | zero => intro s h; omega
  | succ m ih =>
    intro s h
    cases s with
    | nil => simp [readBody]
    | cons c cs =>
      have hlt : cs.length < m := by simpa using h
      simp [readBody, ih cs hlt]

theorem readLine_no_newline :
    ∀ (line rest : List Char), '\n' ∉ line →
      readLine (line ++ '\n' :: rest) = some (line, rest) := by
  intro line
  induction line with
  | nil => intro rest _; simp [readLine]
  | cons c cs ih =>
    intro rest h
    simp only [List.mem_cons, not_or] at h
    simp [readLine, Ne.symm h.1, ih rest h.2]

theorem splitColon_no_colon :
    ∀ (l : List Char), ':' ∉ l → splitColon l = none := by
  intro l
  induction l with
  | nil => intro _; simp [splitColon]
  | cons c cs ih =>
    intro h
    simp only [List.mem_cons, not_or] at h
    simp [splitColon, Ne.symm h.1, ih h.2]

theorem readHeaders_no_colon (line rest : List Char)
    (hne : line ≠ []) (hnc : ':' ∉ line) (hnl : '\n' ∉ line) :
    readHeaders (line ++ '\n' :: rest) = .error .protocolError := by
  simp [readHeaders, readHeadersAux, readLine_no_newline line rest hnl, hne,
    splitColon_no_colon line hnc]

/-- C1: a Frame declaring `Content-Length = N` is only ever yielded with a
body of exactly N bytes, and if the stream ends with fewer than N body bytes
after the header block, the read fails with `ConnectionClosedError` — no
short Frame is yielded. -/
theorem readFrame_contentLength_exact (s : List Char) (n : Nat) :
    (∀ f r, readFrame s = Except.ok (f, r) →
        contentLength f.headers = some n → f.body.length = n) ∧
    (∀ hs rest, readHeaders s = Except.ok (hs, rest) →
        contentLength hs = some n → rest.length < n →
        readFrame s = Except.error EslError.connectionClosedError) := by
  constructor
  · intro f r hok hcl
    cases h1 : readHeaders s with
    | error e => simp [readFrame, h1] at hok
    | ok p =>
      obtain ⟨hs, rest⟩ := p
      cases h2 : hs.lookup "Content-Length" with
      | none =>
        simp [readFrame, h1, h2] at hok
        rw [← hok.1] at hcl
        simp [contentLength, h2] at hcl
      | some v =>
        cases h3 : parseNat? v.data with
        | none => simp [readFrame, h1, h2, h3] at hok
        | some m =>
          cases h4 : readBody m rest with
          | error e => simp [readFrame, h1, h2, h3, h4] at hok
          | ok q =>
            obtain ⟨b, r'⟩ := q
            simp [readFrame, h1, h2, h3, h4] at hok
            rw [← hok.1] at hcl
            simp [contentLength, h2, h3] at hcl
            have hb := readBody_length m rest b r' h4
            rw [← hok.1]
            simp [hb, hcl]
  · intro hs rest hh hcl hlt
    obtain ⟨v, hv, hp⟩ := Option.bind_eq_some.mp hcl
    simp [readFrame, hh, hv, hp, readBody_short n rest hlt]

/-- C1 witness: the stream `Content-Length: 5\n\nhello` yields a 5-byte
body, and the truncated stream `Content-Length: 5\n\nhell` fails with
`ConnectionClosedError`. -/
theorem readFrame_contentLength_exact_witness :
    "hello".toList.length = 5 ∧
    readFrame "Content-Length: 5\n\nhell".toList =
      Except.error EslError.connectionClosedError := by
  constructor
  · exact (readFrame_contentLength_exact "Content-Length: 5\n\nhello".toList 5).1
      ⟨[("Content-Length", "5")], "hello".toList⟩ [] (by rfl) (by rfl)
  · exact (readFrame_contentLength_exact "Content-Length: 5\n\nhell".toList 5).2
      [("Content-Length", "5")] "hell".toList (by rfl) (by rfl) (by decide)

/-- C5: a header line with no `:` separator fails the frame with
`ProtocolError`, and decoding a well-formed frame on a fresh connection is
unaffected by that failure: the fresh connection's decode is exactly
`readFrame` of its own stream. -/
theorem headerLine_without_colon (line rest freshStream : List Char)
    (hne : line ≠ []) (hnc : ':' ∉ line) (hnl : '\n' ∉ line) :
    twoConnections (line ++ '\n' :: rest) freshStream =
      (Except.error EslError.protocolError, readFrame freshStream) := by
  simp [twoConnections, readFrame, readHeaders_no_colon line rest hne hnc hnl]

/-- C5 witness: the malformed stream `badheader\n...` fails with
`ProtocolError` while a well-formed frame decodes completely on a fresh
connection. -/
theorem headerLine_without_colon_witness :
    twoConnections ("badheader".toList ++ '\n' :: [])
        "Content-Type: api/response\nContent-Length: 5\n\nhello".toList =
      (Except.error EslError.protocolError,
       Except.ok ({ headers := [("Content-Type", "api/response"),
                                ("Content-Length", "5")],
                    body := "hello".toList }, [])) := by
  rw [headerLine_without_colon "badheader".toList []
    "Content-Type: api/response\nContent-Length: 5\n\nhello".toList
    (by decide) (by decide) (by decide)]
  rfl

/-- C2: commands submitted sequentially on one Connection are written and
resolved in strict first-submitted-first-resolved order: with the first
command-result frame `f` available on the stream, the event trace for
`cmd1` followed by any number of further callers begins with the write of
`cmd1` and its resolution with `f`, strictly before any event (in
particular any write) of the later commands. -/
theorem send_order (c : Conn) (cmd1 : String) (later : List String)
    (f : Frame) (r : List Char)
    (h : awaitReply c.inStream = Except.ok (f, r)) :
    (runCommands c (cmd1 :: later)).2 =
      WireEvent.write cmd1 :: WireEvent.resolve cmd1 f ::
        (runCommands
          { c with wire := c.wire ++ [cmd1], pending := none, inStream := r }
          later).2 := by
  simp [runCommands, dispatch, beginSend, h]

/-- C2 witness: on a stream holding one `+OK` command reply, submitting
`uptime` then `status` yields the trace write `uptime`, resolve `uptime`,
write `status` — the first command resolves before the second is written. -/
theorem send_order_witness :
    (runCommands
      { state := ConnState.authenticated,
        inStream :=
          "Content-Type: command/reply\nReply-Text: +OK accepted\n\n".toList,
        wire := [], pending := none } ["uptime", "status"]).2 =
      [WireEvent.write "uptime",
       WireEvent.resolve "uptime"
         { headers := [("Content-Type", "command/reply"),
                       ("Reply-Text", "+OK accepted")],
           body := [] },
       WireEvent.write "status"] := by
  rw [send_order _ "uptime" ["status"]
    { headers := [("Content-Type", "command/reply"),
                  ("Reply-Text", "+OK accepted")],
      body := [] }
    [] (by rfl)]
  rfl

/-- C3: `login(password)` submits `auth <password>` via the Command
Dispatcher; a resolved reply carrying an error status raises
`AuthenticationError` and leaves the connection `Failed`; an `+OK`-style
reply returns normally and leaves the connection `Authenticated`. -/
theorem login_spec (c : Conn) (password : String) (f : Frame) (r : List Char)
    (h : awaitReply c.inStream = Except.ok (f, r)) :
    (login c password).2.wire = c.wire ++ ["auth " ++ password] ∧
    (isErrorReply f = true →
      (login c password).1 = Except.error EslError.authenticationError ∧
      (login c password).2.state = ConnState.failed) ∧
    (isErrorReply f = false →
      (login c password).1 = Except.ok () ∧
      (login c password).2.state = ConnState.authenticated) := by
  have hd : dispatch c ("auth " ++ password) =
      (Except.ok f,
       { c with wire := c.wire ++ ["auth " ++ password],
                pending := none, inStream := r }) := by
    simp [dispatch, beginSend, h]
  refine ⟨?_, ?_, ?_⟩
  · by_cases he : isErrorReply f <;> simp [login, hd, he]
  · intro he; simp [login, hd, he]
  · intro he; simp [login, hd, he]

/-- C3 witness: against a `-ERR` reply, `login "wrong"` fails with
`AuthenticationError` in state `Failed`, and the `auth wrong` command was
submitted; against an `+OK` reply, `login "right"` returns normally in
state `Authenticated`. -/
theorem login_spec_witness :
    ((login
        { state := ConnState.awaitingAuth,
          inStream :=
            "Content-Type: command/reply\nReply-Text: -ERR invalid\n\n".toList,
          wire := [], pending := none } "wrong").1 =
        Except.error EslError.authenticationError ∧
     (login
        { state := ConnState.awaitingAuth,
          inStream :=
            "Content-Type: command/reply\nReply-Text: -ERR invalid\n\n".toList,
          wire := [], pending := none } "wrong").2.state = ConnState.failed) ∧
    ((login
        { state := ConnState.awaitingAuth,
          inStream :=
            "Content-Type: command/reply\nReply-Text: +OK accepted\n\n".toList,
          wire := [], pending := none } "right").1 = Except.ok () ∧
     (login
        { state := ConnState.awaitingAuth,
          inStream :=
            "Content-Type: command/reply\nReply-Text: +OK accepted\n\n".toList,
          wire := [], pending := none } "right").2.state =
        ConnState.authenticated) ∧
    (login
        { state := ConnState.awaitingAuth,
          inStream :=
            "Content-Type: command/reply\nReply-Text: +OK accepted\n\n".toList,
          wire := [], pending := none } "right").2.wire = ["auth right"] := by
  refine ⟨?_, ?_, ?_⟩
  · exact (login_spec _ "wrong"
      { headers := [("Content-Type", "command/reply"),
                    ("Reply-Text", "-ERR invalid")], body := [] }
      [] (by rfl)).2.1 (by rfl)
  · exact (login_spec _ "right"
      { headers := [("Content-Type", "command/reply"),
                    ("Reply-Text", "+OK accepted")], body := [] }
      [] (by rfl)).2.2 (by rfl)
  · exact (login_spec _ "right"
      { headers := [("Content-Type", "command/reply"),
                    ("Reply-Text", "+OK accepted")], body := [] }
      [] (by rfl)).1

/-- C4: `close()` never fails and is idempotent — from every connection
state it moves the connection to `Closed`; an outstanding PendingCommand is
resolved with `ConnectionClosedError`; a second `close()` on the closed
connection resolves nothing and changes nothing. -/
theorem close_spec (c : Conn) :
    (close c).2.state = ConnState.closed ∧
    (∀ cmd, c.pending = some cmd →
      (close c).1.resolvedPending = some EslError.connectionClosedError) ∧
    close (close c).2 = ({ resolvedPending := none }, (close c).2) := by
  refine ⟨rfl, ?_, ?_⟩
  · intro cmd hp
    simp [close, hp]
  · simp [close]

/-- C4 witness: closing a connection with a pending `status` command
resolves that command with `ConnectionClosedError` and ends `Closed`. -/
theorem close_spec_witness :
    (close (beginSend
        { state := ConnState.authenticated, inStream := [],
          wire := [], pending := none } "status")).1.resolvedPending =
      some EslError.connectionClosedError ∧
    (close (beginSend
        { state := ConnState.authenticated, inStream := [],
          wire := [], pending := none } "status")).2.state =
      ConnState.closed := by
  exact ⟨(close_spec _).2.1 "status" rfl, (close_spec _).1⟩


/-- C6: every command the three collectors pass to `ESL.send` begins with
`api `, and every returned body they consume is parsed as JSON or XML (the
one body a collector does not consume, `uuid_set_media_stats`, is
discarded unread). -/
theorem collector_commands_api (uuids profiles gateways : List (List Char)) :
    ∀ rq ∈ processInfoRequests ++ channelInfoRequests uuids ++
        sofiaInfoRequests profiles gateways,
      rq.1.take 4 = "api ".toList ∧
      (rq.2 ≠ BodyUse.ignored → rq.2 = BodyUse.json ∨ rq.2 = BodyUse.xml) := by
  intro rq hm
  simp [processInfoRequests, channelInfoRequests, sofiaInfoRequests] at hm
  rcases hm with h | h | ⟨u, hu, h | h⟩ | h | ⟨p, hp, h⟩ | ⟨g, hg, h⟩ <;>
    subst h <;>
    exact ⟨rfl, by first
      | exact fun hne => absurd rfl hne
      | exact fun _ => Or.inl rfl
      | exact fun _ => Or.inr rfl⟩

/-- C6 witness: the `uuid_dump` command for a concrete uuid begins with
`api ` and its body is consumed as JSON. -/
theorem collector_commands_api_witness :
    ("api uuid_dump ".toList ++ "u-1".toList ++ " json".toList).take 4 =
      "api ".toList ∧
    (BodyUse.json ≠ BodyUse.ignored →
      BodyUse.json = BodyUse.json ∨ BodyUse.json = BodyUse.xml) := by
  exact collector_commands_api ["u-1".toList] [] []
    ("api uuid_dump ".toList ++ "u-1".toList ++ " json".toList, BodyUse.json)
    (by simp [processInfoRequests, channelInfoRequests, sofiaInfoRequests])

/-- C7: `ChannelCollector.collect` acquires the connection through the
context manager's open → greeting → login sequence, and the exit handler
closes the underlying writer on every exit path — normal completion, error
and cancellation alike. -/
theorem collect_closes_writer (path : ExitPath) :
    (collectScoped path).1 =
      [AcqStep.openConn, AcqStep.initGreeting, AcqStep.loginAuth] ∧
    (collectScoped path).2.2.closed = true := by
  cases path <;> exact ⟨rfl, rfl⟩

/-- C8: `collect_esl` targets port 8021 when the config has no `port` key
and password `ClueCon` when it has no `password` key; present keys are used
unchanged. -/
theorem collect_esl_defaults (config : List (String × ConfigVal))
    (host : String) :
    (config.lookup "port" = none →
      (collect_esl config host).port = ConfigVal.int 8021) ∧
    (config.lookup "password" = none →
      (collect_esl config host).password = ConfigVal.str "ClueCon") ∧
    (∀ v, config.lookup "port" = some v →
      (collect_esl config host).port = v) ∧
    (∀ v, config.lookup "password" = some v →
      (collect_esl config host).password = v) := by
  refine ⟨?_, ?_, ?_, ?_⟩
  · intro h; simp [collect_esl, configGet, h]
  · intro h; simp [collect_esl, configGet, h]
  · intro v h; simp [collect_esl, configGet, h]
  · intro v h; simp [collect_esl, configGet, h]

/-- C8 witness: the empty config yields port 8021 and password `ClueCon`; a
config carrying both keys yields them unchanged. -/
theorem collect_esl_defaults_witness :
    (collect_esl [] "fs1").port = ConfigVal.int 8021 ∧
    (collect_esl [] "fs1").password = ConfigVal.str "ClueCon" ∧
    (collect_esl [("port", ConfigVal.int 9021),
                  ("password", ConfigVal.str "secret")] "fs1").port =
      ConfigVal.int 9021 ∧
    (collect_esl [("port", ConfigVal.int 9021),
                  ("password", ConfigVal.str "secret")] "fs1").password =
      ConfigVal.str "secret" := by
  refine ⟨?_, ?_, ?_, ?_⟩
  · exact (collect_esl_defaults [] "fs1").1 rfl
  · exact (collect_esl_defaults [] "fs1").2.1 rfl
  · exact (collect_esl_defaults
      [("port", ConfigVal.int 9021), ("password", ConfigVal.str "secret")]
      "fs1").2.2.1 (ConfigVal.int 9021) rfl
  · exact (collect_esl_defaults
      [("port", ConfigVal.int 9021), ("password", ConfigVal.str "secret")]
      "fs1").2.2.2 (ConfigVal.str "secret") rfl

/-- C9: the `freeswitch_test` gauge (constant value 12) is constructed
inside `ESLProcessInfo.collect` but is never contained in the iterable the
method returns, for every response from the switch. -/
theorem testMetric_never_returned (r : StatusResponse) :
    testMetric.name = "freeswitch_test" ∧
    testMetric.samples = [([], (12 : Rat))] ∧
    ∀ m ∈ processInfoCollect r, m.name ≠ "freeswitch_test" := by
  refine ⟨rfl, rfl, ?_⟩
  intro m hm
  simp only [processInfoCollect, List.mem_append, List.mem_cons,
    List.mem_singleton, List.not_mem_nil, or_false] at hm
  rcases hm with (h | h | h) | h
  · rw [h]; show ("freeswitch_info" : String) ≠ "freeswitch_test"; decide
  · rw [h]; show ("freeswitch_up" : String) ≠ "freeswitch_test"; decide
  · rw [h]
    show ("freeswitch_stack_bytes" : String) ≠ "freeswitch_test"; decide
  · cases hc : r.sessionCounts with
    | none => rw [hc] at h; simp at h
    | some counts =>
      rw [hc] at h
      simp only [List.mem_map, List.mem_cons, List.not_mem_nil] at h
      obtain ⟨p, hp, hpm⟩ := h
      rcases hp with h1 | h1 | h1 | h1
      · rw [← hpm, h1]
        show ("freeswitch_session_total" : String) ≠ "freeswitch_test"
        decide
      · rw [← hpm, h1]
        show ("freeswitch_session_active" : String) ≠ "freeswitch_test"
        decide
      · rw [← hpm, h1]
        show ("freeswitch_session_limit" : String) ≠ "freeswitch_test"
        decide
      · simp at h1

/-- C9 witness: for a fully populated status response, the first returned
metric is the version-info gauge, not `freeswitch_test`. -/
theorem testMetric_never_returned_witness :
    ({ name := "freeswitch_info", samples := [(["1.10.7"], (1 : Rat))] } :
        Metric).name ≠ "freeswitch_test" := by
  exact (testMetric_never_returned
    { version := some "1.10.7", systemStatus := some "ready",
      stackSizeKBCurrent := some 240, sessionCounts := some (3, 2, 1000) }).2.2
    { name := "freeswitch_info", samples := [(["1.10.7"], (1 : Rat))] }
    (by simp [processInfoCollect])

/-- C10: the three millisecond-denominated channel variables are emitted on
their seconds gauges with the raw value divided by 1000, and every other
tracked channel variable is emitted with its raw value unchanged. -/
theorem channel_value_scaling (channelvars : List (String × Rat))
    (uuid : String) :
    (channelMetricNames.lookup "variable_rtp_audio_in_jitter_min_variance" =
       some "rtp_audio_in_jitter_seconds_min" ∧
     channelMetricNames.lookup "variable_rtp_audio_in_jitter_max_variance" =
       some "rtp_audio_in_jitter_seconds_max" ∧
     channelMetricNames.lookup "variable_rtp_audio_in_mean_interval" =
       some "rtp_audio_in_mean_interval_seconds") ∧
    ∀ k v mname, (k, v) ∈ channelvars →
      channelMetricNames.lookup k = some mname →
      (mname, [uuid],
        if k ∈ millisecondMetrics then v / 1000 else v) ∈
        channelEmit channelvars uuid := by
  refine ⟨⟨by rfl, by rfl, by rfl⟩, ?_⟩
  intro k v mname hmem hlk
  unfold channelEmit
  apply List.mem_filterMap.mpr
  exact ⟨(k, v), hmem, by simp [hlk]⟩

/-- C10 witness: a 1500 ms minimum jitter variance is emitted as 1.5 s on
`rtp_audio_in_jitter_seconds_min`, while a raw byte counter of 42 is
emitted unchanged. -/
theorem channel_value_scaling_witness :
    ("rtp_audio_in_jitter_seconds_min", ["u-1"], (1500 : Rat) / 1000) ∈
      channelEmit [("variable_rtp_audio_in_jitter_min_variance", 1500),
                   ("variable_rtp_audio_in_raw_bytes", 42)] "u-1" ∧
    ("rtp_audio_in_raw_bytes_total", ["u-1"], (42 : Rat)) ∈
      channelEmit [("variable_rtp_audio_in_jitter_min_variance", 1500),
                   ("variable_rtp_audio_in_raw_bytes", 42)] "u-1" := by
  constructor
  · exact (channel_value_scaling
      [("variable_rtp_audio_in_jitter_min_variance", 1500),
       ("variable_rtp_audio_in_raw_bytes", 42)] "u-1").2
      "variable_rtp_audio_in_jitter_min_variance" 1500
      "rtp_audio_in_jitter_seconds_min" (by simp) (by rfl)
  · exact (channel_value_scaling
      [("variable_rtp_audio_in_jitter_min_variance", 1500),
       ("variable_rtp_audio_in_raw_bytes", 42)] "u-1").2
      "variable_rtp_audio_in_raw_bytes" 42
      "rtp_audio_in_raw_bytes_total" (by simp) (by rfl)

end FreeswitchExporter
